import Mathlib

/-!
Verification development for `src/back_end/Tracker/vanilla_tracker.py`, the
ROI-tracking and intensity-aggregation pipeline.  The Python source is
shallowly embedded: Python floats become an inductive with an explicit NaN
constructor over the rationals, numpy frames become a structure with explicit
dimensions and a pixel function, Python dicts become ordered association lists
with replace-in-place update (matching insertion-order semantics), and the
output file becomes a character list.  External collaborators (the OpenCV
multi-tracker, the numpy reducers, the json serializer) are parameters of the
embedded operations, exactly as the spec treats them: supplied capabilities.
-/

namespace VanillaTracker

/-- A Python float as the tracker uses it: an exact rational or NaN
(the only non-finite value the pipeline's sanitization inspects). -/
inductive RVal
  | nan : RVal
  | val (q : ℚ) : RVal
deriving DecidableEq

/-- Model of `np.isnan` on the embedded float values. -/
def RVal.isNaN : RVal → Bool
  | RVal.nan => true
  | RVal.val _ => false

/-- A bounding box `[left, top, width, height]`, the inner-list shape of the
source's `rois`; coordinates may be fractional (the tracker returns floats). -/
structure Box where
  left : ℚ
  top : ℚ
  width : ℚ
  height : ℚ
deriving DecidableEq

/-- `list(roi_value)`: the box back in its `[left, top, width, height]`
list form. -/
def Box.toList (b : Box) : List ℚ :=
  [b.left, b.top, b.width, b.height]

/-- Python's `int(...)` on a float: truncation toward zero (the floor of a
non-negative value, the ceiling of a negative one; a rational is negative
exactly when its reduced numerator is). -/
def pyInt (q : ℚ) : ℤ :=
  if q.num < 0 then q.ceil else q.floor

/-- `box_to_slice` from the source: `(slice(int(box[1]), int(box[1]+box[3])),
slice(int(box[0]), int(box[0]+box[2])))` — a (row-range, column-range) pair of
integer slice endpoints. -/
def box_to_slice (box : Box) : (ℤ × ℤ) × (ℤ × ℤ) :=
  ((pyInt box.top, pyInt (box.top + box.height)),
   (pyInt box.left, pyInt (box.left + box.width)))

/-- The claim's reading of the conversion: truncate each of the four
coordinates separately, rows `[trunc top, trunc top + trunc height)`,
columns `[trunc left, trunc left + trunc width)`.  Stated from the claim's
words, to be compared with `box_to_slice` above. -/
def box_to_slice_claimed (box : Box) : (ℤ × ℤ) × (ℤ × ℤ) :=
  ((pyInt box.top, pyInt box.top + pyInt box.height),
   (pyInt box.left, pyInt box.left + pyInt box.width))

/-- The amended reading of the conversion, following the spec's words as the
counterexample forces them: truncation is applied to `top`, `left` and to the
sums `top + height`, `left + width` — rows `[trunc top, trunc (top+height))`,
columns `[trunc left, trunc (left+width))`.  Stated separately so it can be
compared with the source's `box_to_slice`. -/
def box_to_slice_spec (box : Box) : (ℤ × ℤ) × (ℤ × ℤ) :=
  ((pyInt box.top, pyInt (box.top + box.height)),
   (pyInt box.left, pyInt (box.left + box.width)))

/-- A rectangle with fractional coordinates on which the two readings of the
conversion disagree. -/
def c6box : Box :=
  Box.mk (1/2) (1/2) (7/10) (7/10)

/-- A numpy image: row/column/channel extents and a total pixel function
(single-channel grayscale arrays of shape (h,w) are `channels = 1`). -/
structure Frame where
  rows : ℕ
  cols : ℕ
  channels : ℕ
  px : ℕ → ℕ → ℕ → ℚ

/-- Normalize one slice endpoint the way numpy basic slicing does on an axis
of extent `n`: negative endpoints count from the end, and everything is
clamped into `[0, n]`. -/
def npIndexR (n : ℕ) (a : ℤ) : ℕ :=
  if a < 0 then (max 0 ((n : ℤ) + a)).toNat else min a.toNat n

/-- Index a frame with a (row-range, column-range) slice pair, numpy style:
out-of-range parts of the requested window are clipped, so the selection can
be empty or smaller than requested.  Channels pass through unchanged. -/
def frameIndex (f : Frame) (sl : (ℤ × ℤ) × (ℤ × ℤ)) : Frame :=
  let r0 := npIndexR f.rows sl.1.1
  let r1 := npIndexR f.rows sl.1.2
  let c0 := npIndexR f.cols sl.2.1
  let c1 := npIndexR f.cols sl.2.2
  { rows := r1 - r0, cols := c1 - c0, channels := f.channels,
    px := fun r c ch => f.px (r0 + r) (c0 + c) ch }

/-- The source constant `VIS = (slice(360), slice(480))`: rows `[0, 360)`,
columns `[0, 480)` of the combined Stryker frame. -/
def VIS : (ℤ × ℤ) × (ℤ × ℤ) :=
  ((0, 360), (0, 480))

/-- The source constant `INFRA = (slice(360, 720), VIS[1])`: rows
`[360, 720)`, same columns as `VIS`. -/
def INFRA : (ℤ × ℤ) × (ℤ × ℤ) :=
  ((360, 720), VIS.2)

/-- `stryker(frame)`: the visible-light panel and the infrared panel of the
combined frame, `(frame[VIS], frame[INFRA])`. -/
def stryker (frame : Frame) : Frame × Frame :=
  (frameIndex frame VIS, frameIndex frame INFRA)

/-- The keys of the per-frame record.  The source builds them with f-strings
(`roi0`, `intensity0`, `spread_intensity0`, ..., and `frame_number`); the
constructor-with-index form is the same key space, since distinct
(kind, index) pairs give distinct key strings. -/
inductive Key
  | frame_number : Key
  | roi (i : ℕ) : Key
  | intensity (i : ℕ) : Key
  | spread_intensity (i : ℕ) : Key
deriving DecidableEq

/-- A Python value stored in the record: an int, a float, a list of floats
(the `list(roi_value)` rectangles), a set of strings, or a singleton dict —
the last two only occur in the source's odd initial value
`'frame_number': ...` built from a dict and a set literal. -/
inductive JVal
  | jint (n : ℤ) : JVal
  | jfloat (v : RVal) : JVal
  | jfloatlist (l : List RVal) : JVal
  | jstrset (l : List String) : JVal
  | jdict1 (k : String) (v : JVal) : JVal
deriving DecidableEq

/-- The record under construction: an insertion-ordered Python dict. -/
abbrev Dict := List (Key × JVal)

/-- Python dict assignment `d[k] = v`: replace in place when the key exists
(keeping its position), append otherwise. -/
def dictSet (d : Dict) (k : Key) (v : JVal) : Dict :=
  match d with
  | [] => [(k, v)]
  | (k', v') :: rest => if k' = k then (k, v) :: rest else (k', v') :: dictSet rest k v

/-- Python dict lookup `d[k]` (as an Option). -/
def dictGet (d : Dict) (k : Key) : Option JVal :=
  match d with
  | [] => none
  | (k', v') :: rest => if k' = k then some v' else dictGet rest k

/-- The body of the innermost loop of `convert_to_dict`: store the rectangle
under `roi{i}`; then, if either the aggregate or the spread value in hand is
NaN, store the sentinel `-1` under both `intensity{i}` and
`spread_intensity{i}`, else store the two values themselves. -/
def sanitize_step (d : Dict) (i : ℕ) (roi_value : Box)
    (intensity_value spread_value : RVal) : Dict :=
  let d1 := dictSet d (Key.roi i) (JVal.jfloatlist (roi_value.toList.map RVal.val))
  if intensity_value.isNaN || spread_value.isNaN then
    dictSet (dictSet d1 (Key.intensity i) (JVal.jint (-1)))
      (Key.spread_intensity i) (JVal.jint (-1))
  else
    dictSet (dictSet d1 (Key.intensity i) (JVal.jfloat intensity_value))
      (Key.spread_intensity i) (JVal.jfloat spread_value)

/-- `convert_to_dict` from the source, loop structure intact: the initial
dict maps `'frame_number'` to the literal dict-of-a-set; then three nested
`enumerate` loops run over `rois`, `agg_intensities` and
`spread_intensities`.  All three loops rebind the same index variable `i`,
and only the innermost binding is ever read, so every (roi, aggregate) pair
of the outer loops replays the whole inner loop over the same keys. -/
def convert_to_dict (rois : List Box) (agg_intensities spread_intensities : List RVal) : Dict :=
  let d0 : Dict := [(Key.frame_number,
    JVal.jdict1 "roi" (JVal.jstrset ["intensity", "spread_intensity"]))]
  rois.foldl (fun d roi_value =>
    agg_intensities.foldl (fun d intensity_value =>
      spread_intensities.enum.foldl
        (fun d iv => sanitize_step d iv.1 roi_value intensity_value iv.2) d) d) d0

/-- `convert_to_JSON_file`: serialize the record with the (external) json
library and append it to the output destination followed by `",\n"` —
the file is the character list it writes into. -/
def convert_to_JSON_file (dumps : Dict → List Char) (d : Dict) (file : List Char) : List Char :=
  file ++ dumps d ++ [',', '\n']

/-- The pluggable per-region tracking capability (the spec's "given frame
N+1, return an updated rectangle or fail"): from the sub-tracker's current
rectangle and the new visible-light frame, the updated (possibly stale)
rectangle and that region's success flag.  This is the interface the source
consumes from `cv2.TrackerMedianFlow` through `cv2.MultiTracker`. -/
abbrev TrackerAlgo := Box → Frame → Box × Bool

/-- The state the `tracker` class holds: the multi-tracker's ordered
sub-tracker rectangles plus the two configured reducers (`agg_func`,
default `np.median`, and the optional `spread_func`), each an external
numeric capability mapping a pixel sub-array to one scalar. -/
structure TrackerState where
  boxes : List Box
  agg_func : Frame → RVal
  spread_func : Option (Frame → RVal)

/-- The `for roi in rois: self.tracker.add(...)` loop of `tracker.__init__`:
one `add` call per seed rectangle, in order, the first raised error aborting
construction.  `add` is the external capability's add operation. -/
def addAll (add : Option Frame → Box → Except String Box) (init_vis : Option Frame) :
    List Box → Except String (List Box)
  | [] => Except.ok []
  | roi :: rest =>
    match add init_vis roi with
    | Except.error e => Except.error e
    | Except.ok b =>
      match addAll add init_vis rest with
      | Except.error e => Except.error e
      | Except.ok bs => Except.ok (b :: bs)

/-- Model of the external OpenCV call
`MultiTracker.add(TrackerMedianFlow_create(), init_vis, tuple(roi))`, per the
contract the wrapper's own docstring states for it ("NOTE: has to be grey
scale for this tracker, so shape is (h,w)"): an absent frame is rejected by
the library, and a frame that is not single-channel violates the documented
precondition.  The repository code itself performs no check. -/
def cv2_add_model (init_vis : Option Frame) (roi : Box) : Except String Box :=
  match init_vis with
  | none => Except.error "bad frame"
  | some fr => if fr.channels = 1 then Except.ok roi else Except.error "frame is not grayscale"

/-- `tracker.__init__(rois, init_vis, agg_func, spread_func)`: seed one
sub-tracker per roi via the capability's add, then store the reducers.
There is no validation beyond what the add calls themselves raise. -/
def tracker_init (add : Option Frame → Box → Except String Box) (rois : List Box)
    (init_vis : Option Frame) (agg_func : Frame → RVal)
    (spread_func : Option (Frame → RVal)) : Except String TrackerState :=
  match addAll add init_vis rois with
  | Except.error e => Except.error e
  | Except.ok bs => Except.ok (TrackerState.mk bs agg_func spread_func)

/-- The seeded rectangles of a construction attempt, when it succeeded. -/
def initBoxes (e : Except String TrackerState) : Option (List Box) :=
  e.toOption.map TrackerState.boxes

/-- What one `tracker.update(vis, infra)` call returns and emits: the updated
rois, the per-roi aggregates, the per-roi spreads when `spread_func` is set,
the warning lines printed, and the multi-tracker's overall success flag. -/
structure UpdateResult where
  rois : List Box
  agg_intensities : List RVal
  spread_intensities : Option (List RVal)
  warnings : List String
  succ : Bool

/-- `tracker.update` from the source: run every sub-tracker on the new
visible frame (the multi-tracker's flag is the conjunction of the per-region
flags, and its roi list keeps the seeded order); print a warning when the
flag is false; then aggregate `infra[box_to_slice(roi)]` per roi with
`agg_func`, and likewise with `spread_func` when it is set.  The call is
total: a partial failure changes no control flow. -/
def tracker_update (algo : TrackerAlgo) (st : TrackerState) (vis infra : Frame) : UpdateResult :=
  let results := st.boxes.map (fun b => algo b vis)
  let succ := results.all (fun r => r.2)
  let rois := results.map (fun r => r.1)
  let warnings : List String :=
    if succ then [] else ["[Warning]: at least one ROI was not detected"]
  let agg_intensities := rois.map (fun roi => st.agg_func (frameIndex infra (box_to_slice roi)))
  let spread_intensities := st.spread_func.map
    (fun sf => rois.map (fun roi => sf (frameIndex infra (box_to_slice roi))))
  UpdateResult.mk rois agg_intensities spread_intensities warnings succ

/-- The state the `__main__` frame loop threads: the tracker, the 1-based
frame counter, and the output file's characters. -/
structure SessState where
  trk : TrackerState
  frame_counter : ℕ
  file : List Char

/-- The record the loop body builds for one frame: `convert_to_dict` on the
update's outputs, then `JSONDictionary['frame_number'] = frame_counter`. -/
def stepRecord (algo : TrackerAlgo) (trk : TrackerState) (fc : ℕ) (p : Frame × Frame) : Dict :=
  let res := tracker_update algo trk p.1 p.2
  dictSet (convert_to_dict res.rois res.agg_intensities (res.spread_intensities.getD []))
    Key.frame_number (JVal.jint (fc : ℤ))

/-- The tracker state after one frame: the multi-tracker's sub-states now
hold the updated rectangles. -/
def stepTrk (algo : TrackerAlgo) (trk : TrackerState) (p : Frame × Frame) : TrackerState :=
  { trk with boxes := (tracker_update algo trk p.1 p.2).rois }

/-- One iteration of the `for ii in range(frames_to_process)` loop: update
the tracker on the frame pair, bump the counter, build the record and append
its serialization (plus `",\n"`) to the file. -/
def sessionStep (algo : TrackerAlgo) (dumps : Dict → List Char) (s : SessState)
    (p : Frame × Frame) : SessState :=
  SessState.mk (stepTrk algo s.trk p) (s.frame_counter + 1)
    (convert_to_JSON_file dumps (stepRecord algo s.trk (s.frame_counter + 1) p) s.file)

/-- The per-frame records a session produces, in order (frame `k` of the
list gets `frame_number` `fc + k`, 1-based from `fc = 0`). -/
def sessionDicts (algo : TrackerAlgo) (trk : TrackerState) (fc : ℕ) :
    List (Frame × Frame) → List Dict
  | [] => []
  | p :: rest => stepRecord algo trk (fc + 1) p :: sessionDicts algo (stepTrk algo trk p) (fc + 1) rest

/-- Each record serialized and followed by `",\n"`, concatenated. -/
def serializedRecords (dumps : Dict → List Char) (ds : List Dict) : List Char :=
  (ds.map (fun d => dumps d ++ [',', '\n'])).flatten

/-- Drop the final `n` characters: `f.seek(-n, os.SEEK_END); f.truncate()`. -/
def dropRightN (l : List Char) (n : ℕ) : List Char :=
  l.take (l.length - n)

/-- The `__main__` output protocol end to end: clear the file, write `[`,
run the frame loop, then remove the final 3 characters and append `]`. -/
def runMain (algo : TrackerAlgo) (dumps : Dict → List Char) (trk0 : TrackerState)
    (pairs : List (Frame × Frame)) : List Char :=
  let file1 : List Char := [] ++ ['[']
  let sEnd := pairs.foldl (sessionStep algo dumps) (SessState.mk trk0 0 file1)
  dropRightN sEnd.file 3 ++ [']']

/-- Values at the record's keys once sanitization ran: anything but the
float NaN. -/
def sanitizedVal (v : JVal) : Bool :=
  match v with
  | JVal.jfloat RVal.nan => false
  | _ => true

/-- Every value stored in the dict is sanitized (never the float NaN). -/
def dictSanitized (d : Dict) : Prop :=
  ∀ k v, dictGet d k = some v → sanitizedVal v = true

/-- Interleave a separator between serialized pieces. -/
def joinSep (ls : List (List Char)) (sep : List Char) : List Char :=
  match ls with
  | [] => []
  | [x] => x
  | x :: rest => x ++ sep ++ joinSep rest sep

/-- A record key's characters, as the source's f-strings produce them. -/
def keyChars (k : Key) : List Char :=
  match k with
  | Key.frame_number => "frame_number".toList
  | Key.roi i => "roi".toList ++ (toString i).toList
  | Key.intensity i => "intensity".toList ++ (toString i).toList
  | Key.spread_intensity i => "spread_intensity".toList ++ (toString i).toList

/-- Python's repr of an integer-valued float (`10.0`); the demo sessions
below only ever serialize such floats, so the non-integer branch (where
Python's shortest-round-trip float repr has no finite rational rendering)
never runs in them. -/
def pyFloatChars (v : RVal) : List Char :=
  match v with
  | RVal.nan => "nan".toList
  | RVal.val q =>
    if q.den = 1 then (toString q.num).toList ++ ['.', '0']
    else (toString q.num).toList ++ ['e'] ++ (toString q.den).toList

/-- One record value's characters under the demo serializer. -/
def jvalChars (v : JVal) : List Char :=
  match v with
  | JVal.jint n => (toString n).toList
  | JVal.jfloat x => pyFloatChars x
  | JVal.jfloatlist l => '[' :: joinSep (l.map pyFloatChars) [',', ' '] ++ [']']
  | JVal.jstrset _ => []
  | JVal.jdict1 _ _ => []

/-- A concrete stand-in for the external `json.dumps` (default separators):
double-quoted keys, `": "` after each key, `", "` between items, the whole
record in curly braces.  Only the shapes the demo sessions produce (ints,
integer-valued floats and float lists) are rendered; `json` itself is an
external collaborator, so any concrete serializer is only an instantiation
of the `dumps` parameter of the session model. -/
def demoDumps (d : Dict) : List Char :=
  '\x7b' :: joinSep (d.map (fun kv =>
    '"' :: keyChars kv.1 ++ ['"', ':', ' '] ++ jvalChars kv.2)) [',', ' '] ++ ['\x7d']

/-- A 360x480 single-channel demo frame (a grayscale visible-light panel). -/
def grayDemo : Frame :=
  Frame.mk 360 480 1 (fun _ _ _ => 0)

/-- A 720x1280 3-channel demo frame (a combined color camera frame). -/
def colorDemo : Frame :=
  Frame.mk 720 1280 3 (fun r c _ => (r : ℚ) + c)

/-- A demo aggregate reducer (a constant capability instance). -/
def demoAgg : Frame → RVal :=
  fun _ => RVal.val 7

/-- A demo spread reducer (a constant capability instance). -/
def demoSpread : Frame → RVal :=
  fun _ => RVal.val 2

/-- The first seed rectangle of the source's own demo session
(`rois0 = [[10, 100, 30, 50], [100, 100, 50, 30]]`). -/
def demoBox : Box :=
  Box.mk 10 100 30 50

/-- The second seed rectangle of the source's demo session. -/
def demoBox2 : Box :=
  Box.mk 100 100 50 30

/-- A demo per-region capability that always succeeds and keeps the box. -/
def demoAlgoOk : TrackerAlgo :=
  fun b _ => (b, true)

/-- A demo per-region capability that always fails, returning the stale box
with a false flag. -/
def demoAlgoFail : TrackerAlgo :=
  fun b _ => (b, false)

lemma ratFloor_eq (q : ℚ) : q.floor = ⌊q⌋ := by
  rw [Rat.floor_def', Rat.floor_def]

lemma pyInt_of_nonneg {q : ℚ} (h : 0 ≤ q) : pyInt q = ⌊q⌋ := by
  unfold pyInt
  rw [if_neg (not_lt.mpr (Rat.num_nonneg.mpr h)), ratFloor_eq]

lemma dictGet_dictSet_self (d : Dict) (k : Key) (v : JVal) :
    dictGet (dictSet d k v) k = some v := by
  induction d with
  | nil => simp [dictSet, dictGet]
  | cons kv rest ih =>
    by_cases h : kv.1 = k
    · simp [dictSet, dictGet, h]
    · simp [dictSet, dictGet, h, ih]

lemma dictGet_dictSet_ne (d : Dict) (k k' : Key) (v : JVal) (h : k' ≠ k) :
    dictGet (dictSet d k v) k' = dictGet d k' := by
  induction d with
  | nil => simp [dictSet, dictGet, Ne.symm h]
  | cons kv rest ih =>
    by_cases hk : kv.1 = k
    · subst hk
      simp [dictSet, dictGet, Ne.symm h]
    · by_cases hk' : kv.1 = k'
      · simp [dictSet, dictGet, hk, hk', h]
      · simp [dictSet, dictGet, hk, hk', ih]

lemma dictGet_dictSet_or (d : Dict) (k k' : Key) (v w : JVal)
    (h : dictGet (dictSet d k v) k' = some w) : w = v ∨ dictGet d k' = some w := by
  by_cases hk : k' = k
  · subst hk
    rw [dictGet_dictSet_self] at h
    exact Or.inl (Option.some.inj h).symm
  · rw [dictGet_dictSet_ne d k k' v hk] at h
    exact Or.inr h

lemma foldl_preserves {α β : Type} (f : β → α → β) (P : β → Prop)
    (hf : ∀ b a, P b → P (f b a)) : ∀ (l : List α) (b : β), P b → P (l.foldl f b) := by
  intro l
  induction l with
  | nil => intro b hb; exact hb
  | cons a rest ih => intro b hb; exact ih (f b a) (hf b a hb)

lemma sanitize_step_sanitized (d : Dict) (i : ℕ) (rv : Box) (a s : RVal)
    (hd : dictSanitized d) : dictSanitized (sanitize_step d i rv a s) := by
  intro k v hget
  unfold sanitize_step at hget
  by_cases hnan : a.isNaN || s.isNaN
  · simp only [hnan, if_true] at hget
    rcases dictGet_dictSet_or _ _ _ _ _ hget with h1 | h1
    · subst h1; rfl
    rcases dictGet_dictSet_or _ _ _ _ _ h1 with h2 | h2
    · subst h2; rfl
    rcases dictGet_dictSet_or _ _ _ _ _ h2 with h3 | h3
    · subst h3; rfl
    · exact hd k v h3
  · simp only [hnan, if_false] at hget
    have hna : a.isNaN = false := by
      cases ha : a.isNaN <;> simp [ha] at hnan ⊢
    have hns : s.isNaN = false := by
      cases hs : s.isNaN <;> simp [hs] at hnan ⊢
    rcases dictGet_dictSet_or _ _ _ _ _ hget with h1 | h1
    · subst h1
      cases s with
      | nan => simp [RVal.isNaN] at hns
      | val q => rfl
    rcases dictGet_dictSet_or _ _ _ _ _ h1 with h2 | h2
    · subst h2
      cases a with
      | nan => simp [RVal.isNaN] at hna
      | val q => rfl
    rcases dictGet_dictSet_or _ _ _ _ _ h2 with h3 | h3
    · subst h3; rfl
    · exact hd k v h3

lemma addAll_ok_length (add : Option Frame → Box → Except String Box)
    (f : Option Frame) : ∀ (rois bs : List Box),
    addAll add f rois = Except.ok bs → bs.length = rois.length := by
  intro rois
  induction rois with
  | nil =>
    intro bs h
    simp only [addAll] at h
    cases h
    rfl
  | cons r rest ih =>
    intro bs h
    simp only [addAll] at h
    cases hadd : add f r with
    | error e => rw [hadd] at h; cases h
    | ok b =>
      rw [hadd] at h
      cases hrest : addAll add f rest with
      | error e => rw [hrest] at h; cases h
      | ok bs' =>
        rw [hrest] at h
        cases h
        simp [ih bs' hrest]

lemma addAll_ok_getElem (add : Option Frame → Box → Except String Box)
    (f : Option Frame) : ∀ (rois bs : List Box),
    addAll add f rois = Except.ok bs →
    ∀ i : ℕ, bs[i]? = (rois[i]?).bind (fun r => (add f r).toOption) := by
  intro rois
  induction rois with
  | nil =>
    intro bs h i
    simp only [addAll] at h
    cases h
    simp
  | cons r rest ih =>
    intro bs h i
    simp only [addAll] at h
    cases hadd : add f r with
    | error e => rw [hadd] at h; cases h
    | ok b =>
      rw [hadd] at h
      cases hrest : addAll add f rest with
      | error e => rw [hrest] at h; cases h
      | ok bs' =>
        rw [hrest] at h
        cases h
        cases i with
        | zero => simp [hadd, Except.toOption]
        | succ j => simpa using ih bs' hrest j

lemma session_file_eq (algo : TrackerAlgo) (dumps : Dict → List Char) :
    ∀ (pairs : List (Frame × Frame)) (s : SessState),
    (pairs.foldl (sessionStep algo dumps) s).file
      = s.file ++ serializedRecords dumps (sessionDicts algo s.trk s.frame_counter pairs) := by
  intro pairs
  induction pairs with
  | nil => intro s; simp [serializedRecords, sessionDicts]
  | cons p rest ih =>
    intro s
    have step : (sessionStep algo dumps s p).file
        = s.file ++ (dumps (stepRecord algo s.trk (s.frame_counter + 1) p) ++ [',', '\n']) := by
      simp [sessionStep, convert_to_JSON_file]
    calc ((p :: rest).foldl (sessionStep algo dumps) s).file
        = (rest.foldl (sessionStep algo dumps) (sessionStep algo dumps s p)).file := rfl
      _ = (sessionStep algo dumps s p).file
            ++ serializedRecords dumps (sessionDicts algo
              (stepTrk algo s.trk p) (s.frame_counter + 1) rest) := ih _
      _ = s.file ++ serializedRecords dumps
            (sessionDicts algo s.trk s.frame_counter (p :: rest)) := by
          rw [step]
          simp [serializedRecords, sessionDicts]

lemma sessionDicts_take (algo : TrackerAlgo) :
    ∀ (pairs : List (Frame × Frame)) (trk : TrackerState) (fc k : ℕ),
    sessionDicts algo trk fc (pairs.take k) = (sessionDicts algo trk fc pairs).take k := by
  intro pairs
  induction pairs with
  | nil => intro trk fc k; simp [sessionDicts]
  | cons p rest ih =>
    intro trk fc k
    cases k with
    | zero => simp [sessionDicts]
    | succ k' => simp [sessionDicts, ih]

lemma serializedRecords_take_prefix (dumps : Dict → List Char) :
    ∀ (ds : List Dict) (k : ℕ),
    serializedRecords dumps (ds.take k) <+: serializedRecords dumps ds := by
  intro ds
  induction ds with
  | nil => intro k; simp [serializedRecords]
  | cons d rest ih =>
    intro k
    cases k with
    | zero => simp [serializedRecords]
    | succ k' =>
      have := ih k'
      obtain ⟨t, ht⟩ := this
      exact ⟨t, by simp [serializedRecords] at ht ⊢; exact ht⟩

lemma tracker_update_rois_length (algo : TrackerAlgo) (st : TrackerState) (vis infra : Frame) :
    (tracker_update algo st vis infra).rois.length = st.boxes.length := by
  simp [tracker_update]

lemma tracker_update_agg_length (algo : TrackerAlgo) (st : TrackerState) (vis infra : Frame) :
    (tracker_update algo st vis infra).agg_intensities.length = st.boxes.length := by
  simp [tracker_update]

lemma pyInt_add_int (q h : ℚ) (hq : 0 ≤ q) (hh : 0 ≤ h) (hden : h.den = 1) :
    pyInt (q + h) = pyInt q + pyInt h := by
  rw [pyInt_of_nonneg (add_nonneg hq hh), pyInt_of_nonneg hq, pyInt_of_nonneg hh]
  rw [← Rat.coe_int_num_of_den_eq_one hden, Int.floor_add_int, Int.floor_intCast]

/-- C8: for every combined frame of at least 720 rows and 480 columns,
`stryker` returns the visible panel (rows 0-359, columns 0-479) and the
infrared panel (rows 360-719, columns 0-479) of the input; the panels'
source row ranges abut without overlapping, and channels pass through.
Purity is inherent to the embedding: `stryker` is a function of the frame
and the input frame is not modified. -/
theorem C8_stryker_splits_panels (f : Frame) (r c ch : ℕ)
    (h720 : 720 ≤ f.rows) (h480 : 480 ≤ f.cols) (_hr : r < 360) (_hc : c < 480) :
    (stryker f).1.rows = 360 ∧ (stryker f).1.cols = 480 ∧
    (stryker f).2.rows = 360 ∧ (stryker f).2.cols = 480 ∧
    (stryker f).1.channels = f.channels ∧ (stryker f).2.channels = f.channels ∧
    (stryker f).1.px r c ch = f.px r c ch ∧
    (stryker f).2.px r c ch = f.px (360 + r) c ch ∧
    VIS.1.2 ≤ INFRA.1.1 ∧ VIS.2 = INFRA.2 := by
  have hr0 : npIndexR f.rows (0 : ℤ) = 0 := by simp [npIndexR]
  have hc0 : npIndexR f.cols (0 : ℤ) = 0 := by simp [npIndexR]
  have hr360 : npIndexR f.rows (360 : ℤ) = 360 := by simp [npIndexR]; omega
  have hr720 : npIndexR f.rows (720 : ℤ) = 720 := by simp [npIndexR]; omega
  have hc480 : npIndexR f.cols (480 : ℤ) = 480 := by simp [npIndexR]; omega
  refine ⟨?_, ?_, ?_, ?_, ?_, ?_, ?_, ?_, ?_, ?_⟩ <;>
    simp [stryker, frameIndex, VIS, INFRA, hr0, hc0, hr360, hr720, hc480]

/-- Witness for C8 at the concrete 720x1280 3-channel demo frame. -/
theorem C8_stryker_splits_panels_witness :
    (stryker colorDemo).1.rows = 360 ∧ (stryker colorDemo).1.cols = 480 ∧
    (stryker colorDemo).2.rows = 360 ∧ (stryker colorDemo).2.cols = 480 ∧
    (stryker colorDemo).1.channels = colorDemo.channels ∧
    (stryker colorDemo).2.channels = colorDemo.channels ∧
    (stryker colorDemo).1.px 5 7 0 = colorDemo.px 5 7 0 ∧
    (stryker colorDemo).2.px 5 7 0 = colorDemo.px (360 + 5) 7 0 ∧
    VIS.1.2 ≤ INFRA.1.1 ∧ VIS.2 = INFRA.2 :=
  C8_stryker_splits_panels colorDemo 5 7 0 (by decide) (by decide) (by decide) (by decide)

/-- C10: in `convert_to_dict`'s innermost write, the two sanitization
decisions are coupled: whenever the aggregate value or the spread value
being examined is NaN, both `intensity{i}` and `spread_intensity{i}` are
set to the sentinel `-1`, even when the other value is finite. -/
theorem C10_sanitization_coupled (d : Dict) (i : ℕ) (rv : Box) (a s : RVal)
    (h : a.isNaN = true ∨ s.isNaN = true) :
    dictGet (sanitize_step d i rv a s) (Key.intensity i) = some (JVal.jint (-1)) ∧
    dictGet (sanitize_step d i rv a s) (Key.spread_intensity i) = some (JVal.jint (-1)) := by
  have hcond : (a.isNaN || s.isNaN) = true := by rcases h with h | h <;> simp [h]
  unfold sanitize_step
  simp only [hcond, if_true]
  constructor
  · rw [dictGet_dictSet_ne _ _ _ _ (by simp), dictGet_dictSet_self]
  · rw [dictGet_dictSet_self]

/-- Witness for C10: a finite aggregate paired with a NaN spread still
drives both fields to `-1`. -/
theorem C10_sanitization_coupled_witness :
    dictGet (sanitize_step [] 0 demoBox (RVal.val 5) RVal.nan) (Key.intensity 0)
        = some (JVal.jint (-1)) ∧
    dictGet (sanitize_step [] 0 demoBox (RVal.val 5) RVal.nan) (Key.spread_intensity 0)
        = some (JVal.jint (-1)) :=
  C10_sanitization_coupled [] 0 demoBox (RVal.val 5) RVal.nan (Or.inr rfl)

/-- C2 fails on the code: with two regions, `convert_to_dict`'s shadowed
loop index makes the last rectangle and the last aggregate overwrite every
`roi{i}` and `intensity{i}` key.  At rois `[[0,0,1,1],[2,2,3,3]]`,
aggregates `[5,6]`, spreads `[7,8]`, the record maps `roi0` to the second
rectangle and `intensity0` to the second aggregate (the spreads alone stay
index-aligned). -/
theorem C2_last_values_overwrite :
    dictGet (convert_to_dict [Box.mk 0 0 1 1, Box.mk 2 2 3 3]
        [RVal.val 5, RVal.val 6] [RVal.val 7, RVal.val 8]) (Key.roi 0)
      = some (JVal.jfloatlist [RVal.val 2, RVal.val 2, RVal.val 3, RVal.val 3]) ∧
    dictGet (convert_to_dict [Box.mk 0 0 1 1, Box.mk 2 2 3 3]
        [RVal.val 5, RVal.val 6] [RVal.val 7, RVal.val 8]) (Key.intensity 0)
      = some (JVal.jfloat (RVal.val 6)) ∧
    dictGet (convert_to_dict [Box.mk 0 0 1 1, Box.mk 2 2 3 3]
        [RVal.val 5, RVal.val 6] [RVal.val 7, RVal.val 8]) (Key.spread_intensity 0)
      = some (JVal.jfloat (RVal.val 7)) := by
  decide

/-- C3's counterexample: with aggregates `[NaN, 5]` and spreads `[1, 2]`,
the NaN aggregate of region 0 does not surface as `-1` in `intensity0`: the
overwrite bug routes the last aggregate (5) there instead. -/
theorem C3_nan_aggregate_not_propagated :
    dictGet (convert_to_dict [Box.mk 0 0 1 1, Box.mk 0 0 1 1]
        [RVal.nan, RVal.val 5] [RVal.val 1, RVal.val 2]) (Key.intensity 0)
      = some (JVal.jfloat (RVal.val 5)) ∧
    dictGet (convert_to_dict [Box.mk 0 0 1 1, Box.mk 0 0 1 1]
        [RVal.nan, RVal.val 5] [RVal.val 1, RVal.val 2]) (Key.intensity 0)
      ≠ some (JVal.jint (-1)) := by
  decide

/-- C3 amended: NaN never reaches the record — every value stored under any
key of `convert_to_dict`'s result is sanitized (a NaN examined at a write is
replaced by `-1` at that write), though the `-1` is not necessarily
attributed to the index of the NaN input. -/
theorem C3_record_never_holds_nan (rois : List Box) (aggs spreads : List RVal)
    (k : Key) (v : JVal)
    (h : dictGet (convert_to_dict rois aggs spreads) k = some v) :
    sanitizedVal v = true := by
  have P0 : dictSanitized
      ([(Key.frame_number, JVal.jdict1 "roi" (JVal.jstrset ["intensity", "spread_intensity"]))] : Dict) := by
    intro k' v' h'
    by_cases hk : Key.frame_number = k'
    · simp [dictGet, hk] at h'
      rw [← h']
      rfl
    · simp [dictGet, hk] at h'
  have Pfinal : dictSanitized (convert_to_dict rois aggs spreads) := by
    unfold convert_to_dict
    exact foldl_preserves _ dictSanitized
      (fun d roi_value hd =>
        foldl_preserves _ dictSanitized
          (fun d' intensity_value hd' =>
            foldl_preserves _ dictSanitized
              (fun d'' iv hd'' =>
                sanitize_step_sanitized d'' iv.1 roi_value intensity_value iv.2 hd'')
              spreads.enum d' hd')
          aggs d hd)
      rois _ P0
  exact Pfinal k v h

/-- Witness for the amended C3 at a concrete one-region record. -/
theorem C3_record_never_holds_nan_witness :
    dictGet (convert_to_dict [demoBox] [RVal.val 3] [RVal.val 4]) (Key.intensity 0)
        = some (JVal.jfloat (RVal.val 3)) ∧
    sanitizedVal (JVal.jfloat (RVal.val 3)) = true :=
  ⟨by decide, C3_record_never_holds_nan [demoBox] [RVal.val 3] [RVal.val 4]
    (Key.intensity 0) (JVal.jfloat (RVal.val 3)) (by decide)⟩

/-- C6's counterexample: at the fractional rectangle
(left, top, width, height) = (1/2, 1/2, 7/10, 7/10), the source truncates
the sums (rows `[0, 1)`), while truncating each coordinate separately as the
claim states gives rows `[0, 0+0) = [0, 0)`: the two conversions disagree. -/
theorem C6_truncation_counterexample :
    box_to_slice c6box = ((0, 1), (0, 1)) ∧
    box_to_slice_claimed c6box = ((0, 0), (0, 0)) ∧
    box_to_slice c6box ≠ box_to_slice_claimed c6box := by
  have h1 : pyInt (1/2 : ℚ) = 0 := by
    rw [pyInt_of_nonneg (by norm_num)]
    norm_num
  have h2 : pyInt ((1/2 : ℚ) + (7/10 : ℚ)) = 1 := by
    rw [pyInt_of_nonneg (by norm_num)]
    norm_num
  have h3 : pyInt (7/10 : ℚ) = 0 := by
    rw [pyInt_of_nonneg (by norm_num)]
    norm_num
  have u1 : box_to_slice c6box
      = ((pyInt (1/2 : ℚ), pyInt ((1/2 : ℚ) + (7/10 : ℚ))),
         (pyInt (1/2 : ℚ), pyInt ((1/2 : ℚ) + (7/10 : ℚ)))) := rfl
  have u2 : box_to_slice_claimed c6box
      = ((pyInt (1/2 : ℚ), pyInt (1/2 : ℚ) + pyInt (7/10 : ℚ)),
         (pyInt (1/2 : ℚ), pyInt (1/2 : ℚ) + pyInt (7/10 : ℚ))) := rfl
  have e1 : box_to_slice c6box = ((0, 1), (0, 1)) := by
    rw [u1, h1, h2]
  have e2 : box_to_slice_claimed c6box = ((0, 0), (0, 0)) := by
    rw [u2, h1, h3]
    norm_num
  exact ⟨e1, e2, by rw [e1, e2]; decide⟩

/-- C6 amended: `box_to_slice` truncates `top`, `left` and the sums
`top + height`, `left + width` (not each coordinate separately), selecting
rows `[trunc top, trunc (top+height))` and columns
`[trunc left, trunc (left+width))`; the claim's per-coordinate version
agrees with it whenever the rectangle's coordinates are non-negative and
its width and height are integral. -/
theorem C6_box_to_slice_truncates_sums :
    (∀ b : Box, box_to_slice b = box_to_slice_spec b) ∧
    (∀ b : Box, 0 ≤ b.top → 0 ≤ b.left → 0 ≤ b.height → 0 ≤ b.width →
      b.height.den = 1 → b.width.den = 1 → box_to_slice b = box_to_slice_claimed b) := by
  constructor
  · intro b
    rfl
  · intro b ht hl hh hw hhd hwd
    simp [box_to_slice, box_to_slice_claimed,
      pyInt_add_int b.top b.height ht hh hhd, pyInt_add_int b.left b.width hl hw hwd]

/-- Witness for the amended C6 at an integral rectangle. -/
theorem C6_box_to_slice_truncates_sums_witness :
    box_to_slice demoBox = box_to_slice_spec demoBox ∧
    box_to_slice demoBox = box_to_slice_claimed demoBox :=
  ⟨C6_box_to_slice_truncates_sums.1 demoBox,
   C6_box_to_slice_truncates_sums.2 demoBox (by norm_num [demoBox]) (by norm_num [demoBox])
     (by norm_num [demoBox]) (by norm_num [demoBox]) (by norm_num [demoBox]) (by norm_num [demoBox])⟩

/-- C9's counterexample: constructing a tracker with an empty seed-rectangle
list does not abort — it succeeds with zero sub-trackers (no add call runs),
and the resulting session is usable: `update` returns empty lists with a
true flag and no warning. -/
theorem C9_empty_seed_list_accepted :
    initBoxes (tracker_init cv2_add_model [] (some grayDemo) demoAgg none) = some [] ∧
    tracker_update demoAlgoOk (TrackerState.mk [] demoAgg none) grayDemo grayDemo
      = UpdateResult.mk [] [] none [] true := by
  exact ⟨rfl, rfl⟩

/-- C9 amended: the wrapper's constructor performs no validation of its own.
With an empty seed list it always succeeds (returning a zero-region session),
for any frame argument and any add capability; construction aborts only when
the capability's per-seed add call rejects the initial frame — absent, or
not single-channel per the capability's documented contract — which requires
at least one seed rectangle. -/
theorem C9_construction_aborts_only_via_add (add : Option Frame → Box → Except String Box)
    (agg : Frame → RVal) (sp : Option (Frame → RVal)) (f : Option Frame)
    (r : Box) (rest : List Box) (fr : Frame) (hch : fr.channels ≠ 1) :
    tracker_init add [] f agg sp = Except.ok (TrackerState.mk [] agg sp) ∧
    (tracker_init cv2_add_model (r :: rest) none agg sp).toOption = none ∧
    (tracker_init cv2_add_model (r :: rest) (some fr) agg sp).toOption = none := by
  refine ⟨rfl, rfl, ?_⟩
  simp [tracker_init, addAll, cv2_add_model, hch, Except.toOption]

/-- Witness for the amended C9: the empty list passes with a grayscale frame
present; one seed rectangle with an absent or 3-channel frame aborts. -/
theorem C9_construction_aborts_only_via_add_witness :
    tracker_init cv2_add_model [] (some grayDemo) demoAgg (some demoSpread)
      = Except.ok (TrackerState.mk [] demoAgg (some demoSpread)) ∧
    (tracker_init cv2_add_model [demoBox] none demoAgg (some demoSpread)).toOption = none ∧
    (tracker_init cv2_add_model [demoBox] (some colorDemo) demoAgg (some demoSpread)).toOption
      = none :=
  C9_construction_aborts_only_via_add cv2_add_model demoAgg (some demoSpread)
    (some grayDemo) demoBox [] colorDemo (by decide)

/-- C4: when the underlying capability reports failure for at least one
region, `tracker.update` still returns rectangles and aggregate (and, when
`spread_func` is configured, spread) values for all regions, emits exactly
the warning line, and the session's loop body still runs to completion on
that frame: the frame counter advances and one record is appended to the
file (no exception interrupts the embedding, whose update is total). -/
theorem C4_partial_failure_nonfatal (algo : TrackerAlgo) (st : TrackerState)
    (vis infra : Frame) (dumps : Dict → List Char) (fc : ℕ) (file : List Char)
    (b : Box) (hb : b ∈ st.boxes) (hfail : (algo b vis).2 = false) :
    (tracker_update algo st vis infra).warnings
        = ["[Warning]: at least one ROI was not detected"] ∧
    (tracker_update algo st vis infra).succ = false ∧
    (tracker_update algo st vis infra).rois.length = st.boxes.length ∧
    (tracker_update algo st vis infra).agg_intensities.length = st.boxes.length ∧
    (tracker_update algo st vis infra).spread_intensities.isSome = st.spread_func.isSome ∧
    (sessionStep algo dumps (SessState.mk st fc file) (vis, infra)).frame_counter = fc + 1 ∧
    file <+: (sessionStep algo dumps (SessState.mk st fc file) (vis, infra)).file := by
  have hsucc : ((st.boxes.map (fun bb => algo bb vis)).all (fun r => r.2)) = false := by
    cases hall : (st.boxes.map (fun bb => algo bb vis)).all (fun r => r.2) with
    | false => rfl
    | true =>
      have hmem := List.all_eq_true.mp hall (algo b vis) (List.mem_map_of_mem _ hb)
      simp only [hfail] at hmem
      cases hmem
  refine ⟨?_, ?_, tracker_update_rois_length algo st vis infra,
    tracker_update_agg_length algo st vis infra, ?_, rfl, ?_⟩
  · simp [tracker_update, hsucc]
  · simp [tracker_update, hsucc]
  · cases hsp : st.spread_func <;> simp [tracker_update, hsp]
  · show file <+: convert_to_JSON_file dumps _ file
    unfold convert_to_JSON_file
    rw [List.append_assoc]
    exact List.prefix_append _ _

/-- Witness for C4: one region whose capability always fails. -/
theorem C4_partial_failure_nonfatal_witness :
    (tracker_update demoAlgoFail (TrackerState.mk [demoBox] demoAgg (some demoSpread))
        grayDemo colorDemo).warnings = ["[Warning]: at least one ROI was not detected"] ∧
    (tracker_update demoAlgoFail (TrackerState.mk [demoBox] demoAgg (some demoSpread))
        grayDemo colorDemo).succ = false ∧
    (tracker_update demoAlgoFail (TrackerState.mk [demoBox] demoAgg (some demoSpread))
        grayDemo colorDemo).rois.length
      = (TrackerState.mk [demoBox] demoAgg (some demoSpread)).boxes.length ∧
    (tracker_update demoAlgoFail (TrackerState.mk [demoBox] demoAgg (some demoSpread))
        grayDemo colorDemo).agg_intensities.length
      = (TrackerState.mk [demoBox] demoAgg (some demoSpread)).boxes.length ∧
    (tracker_update demoAlgoFail (TrackerState.mk [demoBox] demoAgg (some demoSpread))
        grayDemo colorDemo).spread_intensities.isSome
      = (TrackerState.mk [demoBox] demoAgg (some demoSpread)).spread_func.isSome ∧
    (sessionStep demoAlgoFail demoDumps
        (SessState.mk (TrackerState.mk [demoBox] demoAgg (some demoSpread)) 0 ['['])
        (grayDemo, colorDemo)).frame_counter = 0 + 1 ∧
    ['['] <+: (sessionStep demoAlgoFail demoDumps
        (SessState.mk (TrackerState.mk [demoBox] demoAgg (some demoSpread)) 0 ['['])
        (grayDemo, colorDemo)).file :=
  C4_partial_failure_nonfatal demoAlgoFail (TrackerState.mk [demoBox] demoAgg (some demoSpread))
    grayDemo colorDemo demoDumps 0 ['['] demoBox (by decide) rfl

/-- C5: the rectangle, aggregate and (when `spread_func` is set) spread
lists returned by `tracker.update` all have the seed list's length, for any
success/failure pattern, and keep its ordering: the `i`-th returned
rectangle comes from the `i`-th seeded sub-tracker, which was seeded from
the `i`-th seed rectangle. -/
theorem C5_update_preserves_arity (add : Option Frame → Box → Except String Box)
    (rois : List Box) (f : Option Frame) (agg : Frame → RVal) (sf : Frame → RVal)
    (st : TrackerState) (h : tracker_init add rois f agg (some sf) = Except.ok st)
    (algo : TrackerAlgo) (vis infra : Frame) (i : ℕ) :
    st.boxes.length = rois.length ∧
    (tracker_update algo st vis infra).rois.length = rois.length ∧
    (tracker_update algo st vis infra).agg_intensities.length = rois.length ∧
    ((tracker_update algo st vis infra).spread_intensities.getD []).length = rois.length ∧
    (tracker_update algo st vis infra).spread_intensities.isSome = true ∧
    st.boxes[i]? = (rois[i]?).bind (fun r => (add f r).toOption) ∧
    (tracker_update algo st vis infra).rois[i]?
      = (st.boxes[i]?).map (fun bb => (algo bb vis).1) := by
  unfold tracker_init at h
  cases haa : addAll add f rois with
  | error e => rw [haa] at h; cases h
  | ok bs =>
    rw [haa] at h
    cases h
    have hlen : bs.length = rois.length := addAll_ok_length add f rois bs haa
    refine ⟨hlen, ?_, ?_, ?_, rfl, addAll_ok_getElem add f rois bs haa i, ?_⟩
    · rw [tracker_update_rois_length]
      exact hlen
    · rw [tracker_update_agg_length]
      exact hlen
    · simp [tracker_update, hlen]
    · simp only [tracker_update, List.map_map, List.getElem?_map]
      rfl

/-- Witness for C5 at a two-region construction. -/
theorem C5_update_preserves_arity_witness :
    (TrackerState.mk [demoBox, demoBox2] demoAgg (some demoSpread)).boxes.length
      = [demoBox, demoBox2].length ∧
    (tracker_update demoAlgoOk (TrackerState.mk [demoBox, demoBox2] demoAgg (some demoSpread))
        grayDemo colorDemo).rois.length = [demoBox, demoBox2].length ∧
    (tracker_update demoAlgoOk (TrackerState.mk [demoBox, demoBox2] demoAgg (some demoSpread))
        grayDemo colorDemo).agg_intensities.length = [demoBox, demoBox2].length ∧
    ((tracker_update demoAlgoOk (TrackerState.mk [demoBox, demoBox2] demoAgg (some demoSpread))
        grayDemo colorDemo).spread_intensities.getD []).length = [demoBox, demoBox2].length ∧
    (tracker_update demoAlgoOk (TrackerState.mk [demoBox, demoBox2] demoAgg (some demoSpread))
        grayDemo colorDemo).spread_intensities.isSome = true ∧
    (TrackerState.mk [demoBox, demoBox2] demoAgg (some demoSpread)).boxes[1]?
      = ([demoBox, demoBox2][1]?).bind (fun r => (cv2_add_model (some grayDemo) r).toOption) ∧
    (tracker_update demoAlgoOk (TrackerState.mk [demoBox, demoBox2] demoAgg (some demoSpread))
        grayDemo colorDemo).rois[1]?
      = ((TrackerState.mk [demoBox, demoBox2] demoAgg (some demoSpread)).boxes[1]?).map
          (fun bb => (demoAlgoOk bb grayDemo).1) :=
  C5_update_preserves_arity cv2_add_model [demoBox, demoBox2] (some grayDemo) demoAgg
    demoSpread (TrackerState.mk [demoBox, demoBox2] demoAgg (some demoSpread)) rfl
    demoAlgoOk grayDemo colorDemo 1

/-- C7: the output framing protocol, in closed form: the file the session
leaves behind is exactly `[` written once, followed by every per-frame
record's serialization each followed by the two characters `,` and newline,
with exactly the final 3 characters removed by the seek-back-and-truncate
and `]` appended; and during the loop the file only ever grows by appends —
the file after the first `k` frames is a prefix of the file after all of
them, so prior records are never rewritten. -/
theorem C7_framing_protocol (algo : TrackerAlgo) (dumps : Dict → List Char)
    (trk0 : TrackerState) (pairs : List (Frame × Frame)) (k : ℕ) :
    runMain algo dumps trk0 pairs
      = dropRightN ('[' :: serializedRecords dumps (sessionDicts algo trk0 0 pairs)) 3 ++ [']'] ∧
    ((pairs.take k).foldl (sessionStep algo dumps) (SessState.mk trk0 0 ['['])).file
      <+: (pairs.foldl (sessionStep algo dumps) (SessState.mk trk0 0 ['['])).file := by
  constructor
  · show dropRightN (pairs.foldl (sessionStep algo dumps) (SessState.mk trk0 0 ['['])).file 3
        ++ [']'] = _
    rw [session_file_eq algo dumps pairs (SessState.mk trk0 0 ['['])]
    rfl
  · rw [session_file_eq algo dumps (pairs.take k) (SessState.mk trk0 0 ['[']),
      session_file_eq algo dumps pairs (SessState.mk trk0 0 ['['])]
    show ['['] ++ serializedRecords dumps (sessionDicts algo trk0 0 (pairs.take k))
        <+: ['['] ++ serializedRecords dumps (sessionDicts algo trk0 0 pairs)
    rw [sessionDicts_take]
    obtain ⟨t, ht⟩ := serializedRecords_take_prefix dumps (sessionDicts algo trk0 0 pairs) k
    exact ⟨t, by rw [List.append_assoc, ht]⟩

/-- C1 fails on the code: a full one-frame session (seed rectangle
`[10, 100, 30, 50]`, aggregate 7, spread 2, `frame_number` 1) persists a
file whose last record lost its closing brace — the separator appended per
record is the two characters `,` and newline, yet the finalization removes
three, eating the final record's `\x7d` — so the destination is not valid
JSON (one more opening than closing brace) and parses as no sequence of
objects at all. -/
theorem C1_final_truncation_breaks_json :
    runMain demoAlgoOk demoDumps (TrackerState.mk [demoBox] demoAgg (some demoSpread))
        [(grayDemo, colorDemo)]
      = ("[\x7b\"frame_number\": 1, \"roi0\": [10.0, 100.0, 30.0, 50.0], \"intensity0\": 7.0, \"spread_intensity0\": 2.0]").toList ∧
    (runMain demoAlgoOk demoDumps (TrackerState.mk [demoBox] demoAgg (some demoSpread))
        [(grayDemo, colorDemo)]).count '\x7b' = 1 ∧
    (runMain demoAlgoOk demoDumps (TrackerState.mk [demoBox] demoAgg (some demoSpread))
        [(grayDemo, colorDemo)]).count '\x7d' = 0 := by
  decide

end VanillaTracker
